import Mathlib

/-!
Verification of the peer health-tracking entity of libargus (src/Peer.ts).

The class `Peer` is embedded as a pure state structure together with step
functions: each mutating method of the class becomes a function from the
state (plus the method arguments and, where the method reads the clock, an
explicit `now : Nat` in milliseconds) to the new state paired with the list
of events the call emits, in emission order.  Calls into `console.warn` /
`console.error` are modelled as a list of warning strings returned by the
step.  Asynchronous transport fetches inside a polling tick are modelled by
an explicit outcome value (`TickFetch`) describing which of the two fetches
succeeded and with what payload.
-/

namespace Argus

/-- Modelled from the spec: the status-report shape (the `NodeStatus` type
lives in WsApi.ts, which is not part of the sources).  Per the spec a report
carries a required chain height plus optional self-reported fields (node
identifier, version, operating system, and further fields, represented here
by one extra optional field `broadhash`).  `none` models a field whose key
is absent from the report object. -/
structure NodeStatus where
  height : Nat
  nonce : Option String := none
  version : Option String := none
  os : Option String := none
  broadhash : Option String := none
deriving Repr, DecidableEq

/-- Modelled from the spec: a lightweight peer descriptor from the remote
peer list (type `PeerInfo` of WsApi.ts, not in the sources). -/
structure PeerInfo where
  ip : String
  wsPort : Nat
deriving Repr, DecidableEq

/-- The events the class emits (enum `PeerEvent` plus payloads, Peer.ts
lines 7-11, 126, 136, 197). -/
inductive PeerEvent where
  | statusUpdated (st : NodeStatus)
  | peersUpdated (ps : List PeerInfo)
  | nodeStuck
deriving Repr, DecidableEq, BEq

/-- enum PeerState (Peer.ts lines 13-16). -/
inductive PeerState where
  | online
  | offline
deriving Repr, DecidableEq

/-- interface PeerOptions (Peer.ts lines 18-24). -/
structure PeerOptions where
  ip : String
  wsPort : Nat
  httpPort : Nat
  nethash : String
  nonce : Option String := none
deriving Repr, DecidableEq

/-- The mutable fields of class Peer.  `destroyed` records whether the
recurring status-update timer has been cancelled by destroy() (Peer.ts
line 152); while it is false the timer is still scheduled. -/
structure Peer where
  options : PeerOptions
  peers : List PeerInfo := []
  lastHeightUpdate : Nat := 0
  stuck : Bool := false
  state : PeerState := .offline
  status : Option NodeStatus := none
  httpActive : Bool := false
  wsServerConnected : Bool := false
  destroyed : Bool := false
deriving Repr, DecidableEq

/-- The synchronous part of the constructor (Peer.ts lines 48-74): field
initializers only.  The HTTP capability probe and the websocket connect
complete asynchronously and are modelled as separate operations below. -/
def mkPeer (options : PeerOptions) : Peer :=
  { options := options }

/-- JavaScript truthiness of a `string | undefined` value: `undefined` and
the empty string are falsy. -/
def jsTruthy : Option String → Bool
  | none => false
  | some s => s != ""

/-- get nonce (Peer.ts lines 79-89): if a status snapshot exists, return its
nonce field (which may itself be undefined); otherwise return the
configured nonce when truthy; otherwise undefined. -/
def Peer.nonce (p : Peer) : Option String :=
  match p.status with
  | some st => st.nonce
  | none => if jsTruthy p.options.nonce then p.options.nonce else none

/-- One field of `Object.assign(target, source)`: a key present on the
source overwrites, a key absent from the source leaves the target value. -/
def jsOverwrite (newVal oldVal : Option String) : Option String :=
  match newVal with
  | some v => some v
  | none => oldVal

/-- `Object.assign(this._status, status)` (Peer.ts line 133): field-wise
shallow merge of the incoming report over the existing snapshot.  `height`
is a required field, so the incoming value always wins there. -/
def mergeStatus (old new : NodeStatus) : NodeStatus :=
  { height := new.height
    nonce := jsOverwrite new.nonce old.nonce
    version := jsOverwrite new.version old.version
    os := jsOverwrite new.os old.os
    broadhash := jsOverwrite new.broadhash old.broadhash }

/-- handleStatusUpdate (Peer.ts lines 120-137).  Phase 1 is the stuck check
against the pre-merge snapshot (lines 121-127), phase 2 applies the new
status (lines 130-133: on a first report `this._status = status` and the
subsequent self-assign is the identity; afterwards the shallow merge), and
phase 3 emits StatusUpdated with the raw incoming report (line 136).  The
NodeStuck emission of line 126 precedes the StatusUpdated emission. -/
def Peer.handleStatusUpdate (p : Peer) (status : NodeStatus) (now : Nat) :
    Peer × List PeerEvent :=
  let checked : Peer × List PeerEvent :=
    match p.status with
    | none => ({ p with lastHeightUpdate := now, stuck := false }, [])
    | some prev =>
      if status.height > prev.height then
        ({ p with lastHeightUpdate := now, stuck := false }, [])
      else if p.stuck = false ∧ now - p.lastHeightUpdate > 20000 then
        ({ p with stuck := true }, [PeerEvent.nodeStuck])
      else
        (p, [])
  let merged : NodeStatus :=
    match p.status with
    | none => status
    | some prev => mergeStatus prev status
  ({ checked.1 with status := some merged },
    checked.2 ++ [PeerEvent.statusUpdated status])

/-- setWebsocketServerConnected (Peer.ts lines 143-145). -/
def Peer.setWebsocketServerConnected (p : Peer) (connected : Bool) : Peer :=
  { p with wsServerConnected := connected }

/-- destroy (Peer.ts lines 151-154): clears the recurring timer. -/
def Peer.destroy (p : Peer) : Peer :=
  { p with destroyed := true }

/-- onClientConnect (Peer.ts lines 168-171). -/
def Peer.onClientConnect (p : Peer) : Peer :=
  { p with state := .online }

/-- onClientDisconnect (Peer.ts lines 173-176). -/
def Peer.onClientDisconnect (p : Peer) : Peer :=
  { p with state := .offline }

/-- onClientError (Peer.ts lines 178-180): logs to console.error, touches no
state. -/
def Peer.onClientError (p : Peer) (error : String) : Peer × List String :=
  (p, ["connection error from " ++ p.options.ip ++ ": " ++ error])

/-- Resolution of the `.then` handler attached to the HTTP capability probe
issued at construction (Peer.ts lines 60-63) when the probe succeeds; on
failure the catch handler does nothing. -/
def Peer.httpProbeSucceeded (p : Peer) : Peer :=
  { p with httpActive := true }

/-- The outcome of the two asynchronous transport fetches attempted by one
polling tick: the status fetch fails; or it succeeds and the peer-list
fetch fails; or both succeed. -/
inductive TickFetch where
  | statusFail
  | peersFail (st : NodeStatus)
  | ok (st : NodeStatus) (ps : List PeerInfo)
deriving Repr, DecidableEq

/-- The observable outcome of one polling tick: the state after the tick,
the events emitted, the warnings written to the console, and how many
transport fetch calls were attempted. -/
structure TickResult where
  peer : Peer
  events : List PeerEvent
  warnings : List String
  fetchesAttempted : Nat
deriving Repr, DecidableEq

/-- The console.warn message of Peer.ts lines 200-202. -/
def warnMsg (p : Peer) : String :=
  "could not update status of " ++ p.options.ip

/-- updateStatus (Peer.ts lines 186-204): the body of the recurring 2000 ms
timer.  If the peer is not Online the tick returns immediately (lines
187-189) with nothing attempted.  Otherwise the status fetch runs; on
success its result feeds handleStatusUpdate, then the peer-list fetch runs;
on success the peer list is replaced and PeersUpdated emitted (lines
195-198).  Any rejection in the chain lands in the single catch handler
(lines 199-203), which only logs a warning. -/
def Peer.updateStatus (p : Peer) (fetch : TickFetch) (now : Nat) : TickResult :=
  if p.state ≠ PeerState.online then
    ⟨p, [], [], 0⟩
  else
    match fetch with
    | .statusFail => ⟨p, [], [warnMsg p], 1⟩
    | .peersFail st =>
      let r := p.handleStatusUpdate st now
      ⟨r.1, r.2, [warnMsg p], 2⟩
    | .ok st ps =>
      let r := p.handleStatusUpdate st now
      ⟨{ r.1 with peers := ps }, r.2 ++ [PeerEvent.peersUpdated ps], [], 2⟩

/-- Every externally triggerable operation on a constructed Peer: direct
status ingestion, a polling tick with a given fetch outcome, the transport
callbacks, the HTTP probe resolution, the incoming-link mutator, and
destruction. -/
inductive Op where
  | ingest (st : NodeStatus) (now : Nat)
  | tick (f : TickFetch) (now : Nat)
  | connect
  | disconnect
  | clientError (e : String)
  | httpProbeOk
  | markIncomingLink (b : Bool)
  | destroyPeer
deriving Repr, DecidableEq

/-- The state reached after one operation, forgetting emitted events and
logs. -/
def applyOp (p : Peer) (op : Op) : Peer :=
  match op with
  | .ingest st now => (p.handleStatusUpdate st now).1
  | .tick f now => (p.updateStatus f now).peer
  | .connect => p.onClientConnect
  | .disconnect => p.onClientDisconnect
  | .clientError e => (p.onClientError e).1
  | .httpProbeOk => p.httpProbeSucceeded
  | .markIncomingLink b => p.setWebsocketServerConnected b
  | .destroyPeer => p.destroy

/-- Ingest a sequence of (report, arrival-time) pairs in order, keeping only
the final state. -/
def ingestAll (p : Peer) (rs : List (NodeStatus × Nat)) : Peer :=
  rs.foldl (fun q r => (q.handleStatusUpdate r.1 r.2).1) p

/-- Spec-side description of the merged snapshot after a sequence of
reports (spec section 3 merge semantics): for each field the most recently
reported present value wins, a field absent from every report is absent,
and the required height is the last report's height. -/
def specMergedStatus (rs : List NodeStatus) : NodeStatus :=
  { height := ((rs.getLast?).map NodeStatus.height).getD 0
    nonce := (rs.filterMap NodeStatus.nonce).getLast?
    version := (rs.filterMap NodeStatus.version).getLast?
    os := (rs.filterMap NodeStatus.os).getLast?
    broadhash := (rs.filterMap NodeStatus.broadhash).getLast? }

end Argus

namespace Argus

/-! ### Case normal forms of handleStatusUpdate -/

theorem jsOverwrite_none (x : Option String) : jsOverwrite x none = x := by
  cases x <;> rfl

theorem handleStatusUpdate_none (p : Peer) (st : NodeStatus) (now : Nat)
    (hp : p.status = none) :
    p.handleStatusUpdate st now =
      ({ p with lastHeightUpdate := now, stuck := false, status := some st },
        [PeerEvent.statusUpdated st]) := by
  simp [Peer.handleStatusUpdate, hp]

theorem handleStatusUpdate_advance (p : Peer) (st : NodeStatus) (now : Nat)
    (prev : NodeStatus) (hp : p.status = some prev) (hh : prev.height < st.height) :
    p.handleStatusUpdate st now =
      ({ p with
          lastHeightUpdate := now
          stuck := false
          status := some (mergeStatus prev st) },
        [PeerEvent.statusUpdated st]) := by
  simp [Peer.handleStatusUpdate, hp, hh]

theorem handleStatusUpdate_trigger (p : Peer) (st : NodeStatus) (now : Nat)
    (prev : NodeStatus) (hp : p.status = some prev) (hh : ¬ prev.height < st.height)
    (hs : p.stuck = false) (ht : now - p.lastHeightUpdate > 20000) :
    p.handleStatusUpdate st now =
      ({ p with stuck := true, status := some (mergeStatus prev st) },
        [PeerEvent.nodeStuck, PeerEvent.statusUpdated st]) := by
  simp [Peer.handleStatusUpdate, hp, hh, hs, ht]

theorem handleStatusUpdate_noTrigger (p : Peer) (st : NodeStatus) (now : Nat)
    (prev : NodeStatus) (hp : p.status = some prev) (hh : ¬ prev.height < st.height)
    (hq : ¬ (p.stuck = false ∧ now - p.lastHeightUpdate > 20000)) :
    p.handleStatusUpdate st now =
      ({ p with status := some (mergeStatus prev st) },
        [PeerEvent.statusUpdated st]) := by
  simp [Peer.handleStatusUpdate, hp, hh, hq]

theorem handleStatusUpdate_status (p : Peer) (st : NodeStatus) (now : Nat) :
    (p.handleStatusUpdate st now).1.status =
      some (match p.status with
            | none => st
            | some prev => mergeStatus prev st) := rfl

theorem nonce_after_update (p : Peer) (st : NodeStatus) (now : Nat) :
    ((p.handleStatusUpdate st now).1).nonce =
      jsOverwrite st.nonce (p.status.bind NodeStatus.nonce) := by
  rw [Peer.nonce, handleStatusUpdate_status]
  cases hp : p.status
  · simp [jsOverwrite_none]
  · simp [mergeStatus]

end Argus

namespace Argus

/-! ### Claim C1 -/

/-- A concrete configuration whose configured node identifier is "A". -/
def c1Options : PeerOptions :=
  { ip := "127.0.0.1", wsPort := 5000, httpPort := 4000, nethash := "da3e",
    nonce := some "A" }

/-- Claim C1 counterexample: constructing with configured identifier "A" and
then ingesting a report that carries no identifier field yields a resolved
identifier of undefined, not "A" — the getter returns the snapshot's
(absent) nonce without falling back to the configured one once any status
exists. -/
theorem c1_counterexample :
    ((mkPeer c1Options).handleStatusUpdate { height := 10 } 1000).1.nonce = none ∧
    c1Options.nonce = some "A" ∧
    ((mkPeer c1Options).handleStatusUpdate { height := 10 } 1000).1.nonce ≠
      some "A" := by
  decide

/-- Claim C1 (amended): the resolved identifier is two-tier on status
existence, not three-tier on identifier presence.  Once any report has been
ingested, the resolved identifier is the merged snapshot's identifier
field — the incoming report's identifier if present, else the previously
merged one, possibly undefined — and the configured identifier is never
consulted again.  Only while no status has been received does the getter
return the configured identifier (when truthy), else undefined. -/
theorem c1_identifier_resolution :
    (∀ (p : Peer) (st : NodeStatus) (now : Nat),
      ((p.handleStatusUpdate st now).1).nonce =
        jsOverwrite st.nonce (p.status.bind NodeStatus.nonce)) ∧
    (∀ opts : PeerOptions,
      (mkPeer opts).nonce = if jsTruthy opts.nonce then opts.nonce else none) :=
  ⟨nonce_after_update, fun _ => rfl⟩

/-! ### Claim C9 -/

/-- Claim C9: markIncomingLink (setWebsocketServerConnected) writes only the
incoming-link flag and leaves every other field unchanged; the transport
disconnect callback writes only the connection state and leaves every other
field unchanged; hence marking the incoming link and then disconnecting
leaves the flag true while the state is Offline. -/
theorem c9_incoming_link_independent (p : Peer) (b : Bool) :
    ((p.setWebsocketServerConnected b).wsServerConnected = b ∧
      (p.setWebsocketServerConnected b).options = p.options ∧
      (p.setWebsocketServerConnected b).peers = p.peers ∧
      (p.setWebsocketServerConnected b).lastHeightUpdate = p.lastHeightUpdate ∧
      (p.setWebsocketServerConnected b).stuck = p.stuck ∧
      (p.setWebsocketServerConnected b).state = p.state ∧
      (p.setWebsocketServerConnected b).status = p.status ∧
      (p.setWebsocketServerConnected b).httpActive = p.httpActive ∧
      (p.setWebsocketServerConnected b).destroyed = p.destroyed) ∧
    (p.onClientDisconnect.state = PeerState.offline ∧
      p.onClientDisconnect.options = p.options ∧
      p.onClientDisconnect.peers = p.peers ∧
      p.onClientDisconnect.lastHeightUpdate = p.lastHeightUpdate ∧
      p.onClientDisconnect.stuck = p.stuck ∧
      p.onClientDisconnect.status = p.status ∧
      p.onClientDisconnect.httpActive = p.httpActive ∧
      p.onClientDisconnect.wsServerConnected = p.wsServerConnected ∧
      p.onClientDisconnect.destroyed = p.destroyed) ∧
    (p.setWebsocketServerConnected true).onClientDisconnect.wsServerConnected
      = true ∧
    (p.setWebsocketServerConnected true).onClientDisconnect.state
      = PeerState.offline :=
  ⟨⟨rfl, rfl, rfl, rfl, rfl, rfl, rfl, rfl, rfl⟩,
    ⟨rfl, rfl, rfl, rfl, rfl, rfl, rfl, rfl, rfl⟩, rfl, rfl⟩

/-! ### Claim C10 -/

/-- Claim C10: status ingestion never reads the connection state — running
handleStatusUpdate from the same state with the connection state replaced
by anything (in particular Offline) produces the same events and the same
resulting state except for the untouched connection-state field. -/
theorem c10_ingestion_ignores_connection_state (p : Peer) (st : NodeStatus)
    (now : Nat) (x : PeerState) :
    Peer.handleStatusUpdate { p with state := x } st now =
      ({ (p.handleStatusUpdate st now).1 with state := x },
        (p.handleStatusUpdate st now).2) := by
  obtain ⟨opts, peers, lhu, stuck, ps, status, ha, wsc, d⟩ := p
  cases status
  · rfl
  · simp only [Peer.handleStatusUpdate]
    split_ifs <;> rfl

end Argus

namespace Argus

/-! ### Claim C2 -/

/-- Claim C2: the stuck flag is edge-triggered.  On any single ingestion the
number of NodeStuck events emitted is one exactly when the flag was
previously false, a prior snapshot exists whose height is at least the
report's height, and more than 20000 ms have passed since the last recorded
height advance — and zero otherwise (in particular, zero whenever the flag
is already true).  Moreover exactly that same condition makes the flag transition
false-to-true, so one episode emits exactly one event. -/
theorem c2_stuck_edge_triggered (p : Peer) (st : NodeStatus) (now : Nat) :
    ((p.handleStatusUpdate st now).2.count PeerEvent.nodeStuck =
      match p.status with
      | none => 0
      | some prev =>
        if p.stuck = false ∧ st.height ≤ prev.height ∧
            now - p.lastHeightUpdate > 20000 then 1 else 0) ∧
    ((p.handleStatusUpdate st now).1.stuck = true ∧ p.stuck = false ↔
      PeerEvent.nodeStuck ∈ (p.handleStatusUpdate st now).2) := by
  rcases hp : p.status with _ | prev
  · rw [handleStatusUpdate_none p st now hp]
    simp
    rfl
  · by_cases hh : prev.height < st.height
    · rw [handleStatusUpdate_advance p st now prev hp hh]
      simp [not_le.mpr hh]
      rfl
    · by_cases hs : p.stuck = false
      · by_cases ht : now - p.lastHeightUpdate > 20000
        · rw [handleStatusUpdate_trigger p st now prev hp hh hs ht]
          simp [hs, ht, not_lt.mp hh]
          rfl
        · rw [handleStatusUpdate_noTrigger p st now prev hp hh
            (fun hc => ht hc.2)]
          simp [hs, ht]
          rfl
      · rw [handleStatusUpdate_noTrigger p st now prev hp hh
          (fun hc => hs hc.1)]
        simp [hs]
        rfl

end Argus

namespace Argus

/-! ### Claim C3 -/

theorem getLast_filterMap_concat (f : NodeStatus → Option String)
    (L : List NodeStatus) (r : NodeStatus) :
    ((L ++ [r]).filterMap f).getLast? =
      jsOverwrite (f r) ((L.filterMap f).getLast?) := by
  rw [List.filterMap_append]
  cases hf : f r
  · simp [hf, jsOverwrite]
  · simp [hf, jsOverwrite]

theorem specMergedStatus_concat (L : List NodeStatus) (r : NodeStatus) :
    specMergedStatus (L ++ [r]) = mergeStatus (specMergedStatus L) r := by
  simp only [specMergedStatus, mergeStatus, NodeStatus.mk.injEq]
  refine ⟨?_, ?_, ?_, ?_, ?_⟩
  · simp
  · exact getLast_filterMap_concat NodeStatus.nonce L r
  · exact getLast_filterMap_concat NodeStatus.version L r
  · exact getLast_filterMap_concat NodeStatus.os L r
  · exact getLast_filterMap_concat NodeStatus.broadhash L r

theorem mergeStatus_empty (r : NodeStatus) :
    mergeStatus (specMergedStatus []) r = r := by
  simp [specMergedStatus, mergeStatus, jsOverwrite_none]

/-- Claim C3: after any nonempty sequence of ingested (report, time) pairs,
the stored snapshot is exactly the field-wise shallow merge of all reports
received so far — the height of the last report, and for every optional
field the most recently reported present value, retained across later
reports that omit it. -/
theorem c3_latest_status_is_merge (opts : PeerOptions)
    (rs : List (NodeStatus × Nat)) (h : rs ≠ []) :
    (ingestAll (mkPeer opts) rs).status =
      some (specMergedStatus (rs.map Prod.fst)) := by
  induction rs using List.reverseRecOn with
  | nil => cases h rfl
  | append_singleton l a ih =>
    have hstep : ingestAll (mkPeer opts) (l ++ [a]) =
        ((ingestAll (mkPeer opts) l).handleStatusUpdate a.1 a.2).1 := by
      simp [ingestAll]
    rw [hstep, handleStatusUpdate_status]
    by_cases hl : l = []
    · subst hl
      simp only [ingestAll, List.foldl_nil, List.nil_append, List.map_cons,
        List.map_nil]
      rw [show ([a.1] : List NodeStatus) = [] ++ [a.1] from rfl,
        specMergedStatus_concat, mergeStatus_empty]
      rfl
    · rw [ih hl]
      simp only [List.map_append, List.map_cons, List.map_nil,
        specMergedStatus_concat]

def sampleOptions : PeerOptions :=
  { ip := "10.0.0.7", wsPort := 7001, httpPort := 7000, nethash := "aa11" }

/-- A report sequence where the second report omits the identifier and
version fields reported first. -/
def c3Reports : List (NodeStatus × Nat) :=
  [({ height := 5, nonce := some "X", version := some "1.0" }, 0),
    ({ height := 6, os := some "linux" }, 100)]

/-- Witness for claim C3 at a concrete two-report sequence. -/
theorem c3_witness :
    c3Reports ≠ [] ∧
    (ingestAll (mkPeer sampleOptions) c3Reports).status =
      some (specMergedStatus (c3Reports.map Prod.fst)) :=
  ⟨by decide, c3_latest_status_is_merge sampleOptions c3Reports (by decide)⟩

end Argus

namespace Argus

/-! ### Claim C4 -/

/-- Claim C4: within one ingestion call with a prior snapshot, the stuck
check is decided against the pre-merge snapshot height (the merge happens
only afterwards), it is evaluated on every such call, and the events
emitted are the possible NodeStuck followed by StatusUpdated carrying the
raw incoming report — while the stored snapshot becomes the merge, which is
not the emitted payload. -/
theorem c4_check_uses_premerge_height (p : Peer) (st : NodeStatus) (now : Nat)
    (prev : NodeStatus) (hp : p.status = some prev) :
    (p.handleStatusUpdate st now).2 =
      (if p.stuck = false ∧ st.height ≤ prev.height ∧
          now - p.lastHeightUpdate > 20000 then [PeerEvent.nodeStuck] else [])
        ++ [PeerEvent.statusUpdated st] ∧
    (p.handleStatusUpdate st now).1.status = some (mergeStatus prev st) := by
  constructor
  · by_cases hh : prev.height < st.height
    · rw [handleStatusUpdate_advance p st now prev hp hh]
      simp [not_le.mpr hh]
    · by_cases hs : p.stuck = false
      · by_cases ht : now - p.lastHeightUpdate > 20000
        · rw [handleStatusUpdate_trigger p st now prev hp hh hs ht]
          simp [hs, ht, not_lt.mp hh]
        · rw [handleStatusUpdate_noTrigger p st now prev hp hh
            (fun hc => ht hc.2)]
          simp [ht]
      · rw [handleStatusUpdate_noTrigger p st now prev hp hh
          (fun hc => hs hc.1)]
        simp [hs]
  · rw [handleStatusUpdate_status, hp]

/-- The first report ever ingested by a freshly constructed sample peer. -/
def sampleFirstReport : NodeStatus :=
  { height := 10, nonce := some "N1" }

/-- A sample peer that has ingested exactly one report. -/
def samplePeer1 : Peer :=
  ((mkPeer sampleOptions).handleStatusUpdate sampleFirstReport 0).1

/-- Witness for claim C4: a peer holding a prior snapshot, ingesting a
fresh report. -/
theorem c4_witness :
    samplePeer1.status = some sampleFirstReport ∧
    ((samplePeer1.handleStatusUpdate { height := 10 } 30000).2 =
      (if samplePeer1.stuck = false ∧
          ({ height := 10 } : NodeStatus).height ≤ sampleFirstReport.height ∧
          30000 - samplePeer1.lastHeightUpdate > 20000
        then [PeerEvent.nodeStuck] else [])
        ++ [PeerEvent.statusUpdated { height := 10 }] ∧
      (samplePeer1.handleStatusUpdate { height := 10 } 30000).1.status =
        some (mergeStatus sampleFirstReport { height := 10 })) :=
  ⟨rfl, c4_check_uses_premerge_height samplePeer1 { height := 10 } 30000
    sampleFirstReport rfl⟩

/-! ### Claim C5 -/

/-- The height-advance condition of Peer.ts line 121: no prior status, or
the incoming report strictly above the previous snapshot height. -/
def heightAdvanced (p : Peer) (st : NodeStatus) : Bool :=
  match p.status with
  | none => true
  | some prev => decide (prev.height < st.height)

/-- Claim C5: whenever no prior status exists or the report height strictly
exceeds the previous snapshot height, ingestion records the current time as
the last height advance, clears the stuck flag, and emits only
StatusUpdated — recovery from a stuck state is silent. -/
theorem c5_advance_resets_silently (p : Peer) (st : NodeStatus) (now : Nat)
    (h : heightAdvanced p st = true) :
    (p.handleStatusUpdate st now).1.lastHeightUpdate = now ∧
    (p.handleStatusUpdate st now).1.stuck = false ∧
    (p.handleStatusUpdate st now).2 = [PeerEvent.statusUpdated st] := by
  rcases hp : p.status with _ | prev
  · rw [handleStatusUpdate_none p st now hp]
    exact ⟨rfl, rfl, rfl⟩
  · have hh : prev.height < st.height := by
      have := h
      rw [heightAdvanced, hp] at this
      exact of_decide_eq_true this
    rw [handleStatusUpdate_advance p st now prev hp hh]
    exact ⟨rfl, rfl, rfl⟩

/-- A sample peer that is currently stuck: same height reported twice,
more than 20 seconds apart. -/
def stuckPeer : Peer :=
  (samplePeer1.handleStatusUpdate { height := 10 } 30000).1

/-- Witness for claim C5: a stuck peer receiving a height advance resets
silently. -/
theorem c5_witness :
    stuckPeer.stuck = true ∧
    heightAdvanced stuckPeer { height := 11 } = true ∧
    ((stuckPeer.handleStatusUpdate { height := 11 } 40000).1.lastHeightUpdate
        = 40000 ∧
      (stuckPeer.handleStatusUpdate { height := 11 } 40000).1.stuck = false ∧
      (stuckPeer.handleStatusUpdate { height := 11 } 40000).2 =
        [PeerEvent.statusUpdated { height := 11 }]) :=
  ⟨by decide, by decide,
    c5_advance_resets_silently stuckPeer { height := 11 } 40000 (by decide)⟩

end Argus

namespace Argus

/-! ### Claim C6 -/

theorem handleStatusUpdate_isSome (p : Peer) (st : NodeStatus) (now : Nat) :
    ((p.handleStatusUpdate st now).1.status).isSome = true := by
  rw [handleStatusUpdate_status]
  rfl

theorem applyOp_status_isSome (p : Peer) (op : Op)
    (h : p.status.isSome = true) : ((applyOp p op).status).isSome = true := by
  cases op with
  | ingest st now => exact handleStatusUpdate_isSome p st now
  | tick f now =>
    show ((p.updateStatus f now).peer.status).isSome = true
    rw [Peer.updateStatus.eq_def]
    split
    · exact h
    · cases f with
      | statusFail => exact h
      | peersFail st => exact handleStatusUpdate_isSome p st now
      | ok st ps => exact handleStatusUpdate_isSome p st now
  | connect => exact h
  | disconnect => exact h
  | clientError e => exact h
  | httpProbeOk => exact h
  | markIncomingLink b => exact h
  | destroyPeer => exact h

/-- Claim C6: once a status report has been ingested, the snapshot is
non-null forever — no sequence of further operations (ingestion, polling
ticks with any fetch outcome, connection callbacks, the incoming-link
mutator, the HTTP probe, or destruction) ever returns it to none. -/
theorem c6_status_never_null_again (p : Peer) (ops : List Op)
    (h : p.status.isSome = true) :
    (((ops.foldl applyOp p).status)).isSome = true := by
  induction ops generalizing p with
  | nil => exact h
  | cons op rest ih => exact ih (applyOp p op) (applyOp_status_isSome p op h)

/-- A sample operation sequence mixing every kind of operation. -/
def c6Ops : List Op :=
  [Op.disconnect, Op.tick TickFetch.statusFail 2000, Op.connect,
    Op.tick (TickFetch.ok { height := 12 } [{ ip := "8.8.8.8", wsPort := 1 }])
      4000,
    Op.markIncomingLink true, Op.clientError "boom", Op.httpProbeOk,
    Op.ingest { height := 13 } 6000, Op.destroyPeer]

/-- Witness for claim C6 on a concrete mixed operation sequence. -/
theorem c6_witness :
    samplePeer1.status.isSome = true ∧
    (((c6Ops.foldl applyOp samplePeer1).status)).isSome = true :=
  ⟨by decide, c6_status_never_null_again samplePeer1 c6Ops (by decide)⟩

end Argus

namespace Argus

/-! ### Claims C7 and C8 -/

theorem handleStatusUpdate_peers (p : Peer) (st : NodeStatus) (now : Nat) :
    (p.handleStatusUpdate st now).1.peers = p.peers := by
  rw [Peer.handleStatusUpdate]
  dsimp only
  split
  · rfl
  · split_ifs <;> rfl

theorem handleStatusUpdate_destroyed (p : Peer) (st : NodeStatus) (now : Nat) :
    (p.handleStatusUpdate st now).1.destroyed = p.destroyed := by
  rw [Peer.handleStatusUpdate]
  dsimp only
  split
  · rfl
  · split_ifs <;> rfl

theorem handleStatusUpdate_no_peersUpdated (p : Peer) (st : NodeStatus)
    (now : Nat) (ps : List PeerInfo) :
    PeerEvent.peersUpdated ps ∉ (p.handleStatusUpdate st now).2 := by
  rw [Peer.handleStatusUpdate]
  dsimp only
  split
  · simp
  · split_ifs <;> simp

/-- Claim C7: a failed fetch aborts only the remainder of that tick.  If the
status fetch fails, the peer is left entirely unchanged, no event is
emitted, and the error goes to the console as a warning; if only the
peer-list fetch fails, the peer list stays unchanged, no PeersUpdated event
is emitted, the status-ingestion part keeps its effect, and the warning is
logged.  In both cases the recurring timer stays uncancelled (the destroyed
flag is untouched), so the next scheduled tick proceeds independently. -/
theorem c7_tick_failure_contained (p : Peer) (st : NodeStatus)
    (ps : List PeerInfo) (now : Nat) (h : p.state = PeerState.online) :
    (p.updateStatus TickFetch.statusFail now =
      { peer := p, events := [], warnings := [warnMsg p],
        fetchesAttempted := 1 }) ∧
    (p.updateStatus (TickFetch.peersFail st) now).peer =
      (p.handleStatusUpdate st now).1 ∧
    (p.updateStatus (TickFetch.peersFail st) now).peer.peers = p.peers ∧
    (p.updateStatus (TickFetch.peersFail st) now).peer.destroyed =
      p.destroyed ∧
    (p.updateStatus (TickFetch.peersFail st) now).events =
      (p.handleStatusUpdate st now).2 ∧
    PeerEvent.peersUpdated ps ∉
      (p.updateStatus (TickFetch.peersFail st) now).events ∧
    (p.updateStatus (TickFetch.peersFail st) now).warnings = [warnMsg p] := by
  have hcond : ¬ p.state ≠ PeerState.online := fun hc => hc h
  have hfail : p.updateStatus TickFetch.statusFail now =
      ⟨p, [], [warnMsg p], 1⟩ := by
    rw [Peer.updateStatus.eq_def, if_neg hcond]
  have hpeers : p.updateStatus (TickFetch.peersFail st) now =
      ⟨(p.handleStatusUpdate st now).1, (p.handleStatusUpdate st now).2,
        [warnMsg p], 2⟩ := by
    rw [Peer.updateStatus.eq_def, if_neg hcond]
  rw [hfail, hpeers]
  exact ⟨rfl, rfl, handleStatusUpdate_peers p st now,
    handleStatusUpdate_destroyed p st now, rfl,
    handleStatusUpdate_no_peersUpdated p st now ps, rfl⟩

/-- A sample peer that is Online with a snapshot on hand. -/
def onlinePeer : Peer := samplePeer1.onClientConnect

/-- Witness for claim C7 at a concrete online peer. -/
theorem c7_witness :
    onlinePeer.state = PeerState.online ∧
    ((onlinePeer.updateStatus TickFetch.statusFail 777 =
      { peer := onlinePeer, events := [], warnings := [warnMsg onlinePeer],
        fetchesAttempted := 1 }) ∧
    (onlinePeer.updateStatus (TickFetch.peersFail { height := 11 }) 777).peer =
      (onlinePeer.handleStatusUpdate { height := 11 } 777).1 ∧
    (onlinePeer.updateStatus (TickFetch.peersFail { height := 11 }) 777).peer.peers
      = onlinePeer.peers ∧
    (onlinePeer.updateStatus (TickFetch.peersFail { height := 11 }) 777).peer.destroyed
      = onlinePeer.destroyed ∧
    (onlinePeer.updateStatus (TickFetch.peersFail { height := 11 }) 777).events =
      (onlinePeer.handleStatusUpdate { height := 11 } 777).2 ∧
    PeerEvent.peersUpdated [] ∉
      (onlinePeer.updateStatus (TickFetch.peersFail { height := 11 }) 777).events ∧
    (onlinePeer.updateStatus (TickFetch.peersFail { height := 11 }) 777).warnings
      = [warnMsg onlinePeer]) :=
  ⟨rfl, c7_tick_failure_contained onlinePeer { height := 11 } [] 777 rfl⟩

/-- Claim C8: a polling tick that fires while the connection state is not
Online is a complete no-op — no fetch is attempted regardless of what the
transport would have answered, no event is emitted, nothing is logged, and
the state is unchanged. -/
theorem c8_offline_tick_noop (p : Peer) (f : TickFetch) (now : Nat)
    (h : p.state ≠ PeerState.online) :
    p.updateStatus f now =
      { peer := p, events := [], warnings := [], fetchesAttempted := 0 } := by
  rw [Peer.updateStatus.eq_def, if_pos h]

/-- Witness for claim C8: a freshly constructed (hence Offline) peer ticking
with a fetch outcome that would have succeeded. -/
theorem c8_witness :
    (mkPeer sampleOptions).state ≠ PeerState.online ∧
    (mkPeer sampleOptions).updateStatus
        (TickFetch.ok { height := 99 } [{ ip := "8.8.8.8", wsPort := 1 }]) 123 =
      { peer := mkPeer sampleOptions, events := [], warnings := [],
        fetchesAttempted := 0 } :=
  ⟨by decide,
    c8_offline_tick_noop (mkPeer sampleOptions)
      (TickFetch.ok { height := 99 } [{ ip := "8.8.8.8", wsPort := 1 }]) 123
      (by decide)⟩

end Argus
